import Mathlib

/-!
Shallow embedding of the `x86_vlapic` crate (virtual Local APIC emulation for a
type-1 hypervisor) and proofs about its register-access semantics.

Conventions used throughout:

* Machine integers are modelled as `Nat`. A read of a `u32`/`u64` storage cell
  that feeds into arithmetic or bit operations goes through `u32c` / `u64c`
  (reduction mod `2^32` / `2^64`), mirroring the width of the Rust type; a
  Rust `as u32` cast is `u32c`, wrapping `u64` arithmetic is `u64c`.
* Calls into external collaborators (the timer service, the VMM injection API)
  are recorded as `Event`s.
* Rust control flow that diverges is made explicit in result types:
  `ExecRes.panicked` models a genuine `panic!` / `unreachable!` / out-of-bounds
  index, and `ExecRes.stub` models reaching an `unimplemented!` collaborator
  stub (the in-place state mutations performed before that point persist, since
  the virtual-APIC page is written through raw pointers as execution proceeds).
  Functions that can only panic and return no error use `Option` instead.
-/

namespace XVlapic

/-- Reduction of a `Nat` to the value range of a `u32`; models `u32` storage
and `as u32` casts of the source. -/
def u32c (n : Nat) : Nat := n % 2 ^ 32

/-- Reduction of a `Nat` to the value range of a `u64`; models `u64` storage
and wrapping `u64` arithmetic of the source. -/
def u64c (n : Nat) : Nat := n % 2 ^ 64

/-- Bitwise complement within a `u32`, modelling Rust `!x` on `u32`. -/
def u32compl (x : Nat) : Nat := (2 ^ 32 - 1) ^^^ x

/-- Bitwise complement within a `u64`, modelling Rust `!x` on `u64`. -/
def u64compl (x : Nat) : Nat := (2 ^ 64 - 1) ^^^ x

/-- Bitwise complement within a `u128`, modelling Rust `!x` on `u128`
(the ISR/TMR/IRR page cells are declared as `u128`). -/
def u128compl (x : Nat) : Nat := (2 ^ 128 - 1) ^^^ x

/-- Error kinds of `axerrno::AxError` used by this crate. -/
inductive AxError where
  | InvalidInput
  | InvalidData
  | BadState
  deriving DecidableEq, Repr

/-- Calls into external collaborators (timer service, VMM API, I/O APIC),
recorded instead of performed. -/
inductive Event where
  /-- Model of `axvisor_api::time::cancel_timer(token)`. -/
  | cancelTimer (token : Nat)
  /-- Model of `axvisor_api::time::register_timer(deadline, callback)`; the callback
  captures `(vm_id, vcpu_id, vector)` by value at arm time. -/
  | registerTimer (deadlineTicks vmId vcpuId vector : Nat)
  /-- reaching the `unimplemented!` EOI-broadcast stub in `process_eoi`. -/
  | vioapicBroadcastEoi (vector : Nat)
  /-- reaching the `unimplemented!` `vcpu_make_request` stub in `process_eoi`. -/
  | vcpuMakeRequest
  /-- reaching the `unimplemented!` `set_intr` stub (fixed-mode IPI delivery). -/
  | setIntr (vcpuId vector : Nat) (level : Bool)
  /-- reaching the `unimplemented!` `inject_nmi` stub. -/
  | injectNmi (vcpuId : Nat)
  /-- reaching the `unimplemented!` `process_init_sipi` stub. -/
  | initSipi (vcpuId mode icrLow : Nat)
  /-- reaching the `unimplemented!` `handle_self_ipi` stub. -/
  | selfIpiStub
  deriving DecidableEq, Repr

/-- Termination status of a modelled `&mut self` method. `ok` and `err e`
mirror `AxResult`; `stub` marks reaching an `unimplemented!` collaborator stub
and `panicked` marks a `panic!`/`unreachable!`/index-out-of-bounds. -/
inductive ExecRes where
  | ok
  | err (e : AxError)
  | stub
  | panicked
  deriving DecidableEq, Repr

/-- Values supplied by the external collaborators (`axvisor_api`): the clock,
tick/nanosecond conversion, the token handed out by `register_timer`, and the
VMM topology queries. Collaborator functions are modelled as unconstrained
functions `Nat → Nat` whose results are reduced to `u64` range at the call. -/
structure Env where
  currentTicks : Nat
  ticksToNanos : Nat → Nat
  nanosToTicks : Nat → Nat
  currentTimeNanos : Nat
  registerTimerToken : Nat
  currentVmActiveVcpus : Nat
  activeVcpusOfCurrentVm : Nat
  currentVmVcpuNum : Nat

/-! ## `src/timer.rs` — the virtual APIC timer -/

/-- State of `ApicTimer` (src/timer.rs). -/
structure ApicTimer where
  lvt_timer_register : Nat
  initial_count_register : Nat
  divide_configuration_register : Nat
  divide_shift : Nat
  last_start_ticks : Nat
  deadline_ns : Nat
  cancel_token : Option Nat
  vm_id : Nat
  vcpu_id : Nat
  deriving DecidableEq, Repr

/-- Model of `ApicTimer::new(vm_id, vcpu_id)`. -/
def ApicTimer.new (vmId vcpuId : Nat) : ApicTimer where
  lvt_timer_register := 0x10000
  initial_count_register := 0
  divide_configuration_register := 0
  divide_shift := 1
  last_start_ticks := 0
  deadline_ns := 0
  cancel_token := none
  vm_id := vmId
  vcpu_id := vcpuId

/-- Model of `ApicTimer::read_lvt`. -/
def ApicTimer.read_lvt (t : ApicTimer) : Nat := t.lvt_timer_register

/-- Model of `ApicTimer::write_lvt` (returns `Ok(())` unconditionally; masks the value
with `LVT_MASK = 0x0007_10FF`). -/
def ApicTimer.write_lvt (t : ApicTimer) (value : Nat) : ApicTimer :=
  { t with lvt_timer_register := value &&& 0x000710FF }

/-- Model of `ApicTimer::read_icr`. -/
def ApicTimer.read_icr (t : ApicTimer) : Nat := t.initial_count_register

/-- Model of `ApicTimer::read_dcr`. -/
def ApicTimer.read_dcr (t : ApicTimer) : Nat := t.divide_configuration_register

/-- The `match` of `ApicTimer::write_dcr` mapping the masked DCR encoding to a
shift; `none` models the `unreachable!` arm. -/
def dcrShiftOfValue (value : Nat) : Option Nat :=
  match value with
  | 0b0000 => some 1
  | 0b0001 => some 2
  | 0b0010 => some 3
  | 0b0011 => some 4
  | 0b1000 => some 5
  | 0b1001 => some 6
  | 0b1010 => some 7
  | 0b1011 => some 0
  | _ => none

/-- Model of `ApicTimer::write_dcr`; `none` models reaching the `unreachable!` arm. -/
def ApicTimer.write_dcr (t : ApicTimer) (value : Nat) : Option ApicTimer :=
  let value := value &&& 0b1011
  match dcrShiftOfValue value with
  | some shift =>
      some { t with divide_configuration_register := value, divide_shift := shift }
  | none => none

/-- Model of `ApicTimer::is_started`. -/
def ApicTimer.is_started (t : ApicTimer) : Bool :=
  decide (0 < t.initial_count_register) && t.cancel_token.isSome

/-- Model of `ApicTimer::read_ccr`. The source computes
`deadline_ns.wrapping_sub(current_time_nanos())`, converts to ticks, shifts by
`divide_shift` and truncates with `as u32`; there is no saturation at 0. -/
def ApicTimer.read_ccr (t : ApicTimer) (env : Env) : Nat :=
  if !t.is_started then 0
  else
    let remaining_ns := u64c (u64c t.deadline_ns + 2 ^ 64 - u64c env.currentTimeNanos)
    let remaining_ticks := u64c (env.nanosToTicks remaining_ns)
    u32c (remaining_ticks >>> t.divide_shift)

/-- The `LVT_TIMER::TimerMode` field (bits 17..18) of the timer's LVT copy. -/
def ApicTimer.timerModeBits (t : ApicTimer) : Nat :=
  (u32c t.lvt_timer_register >>> 17) &&& 0b11

/-- Model of `ApicTimer::vector` (the `LVT_TIMER::Vector` field, bits 0..7). -/
def ApicTimer.vector (t : ApicTimer) : Nat := u32c t.lvt_timer_register &&& 0xFF

/-- Model of `ApicTimer::is_periodic` (`timer_mode() == Periodic`; the 2-bit field
always parses, so the `unwrap` in `timer_mode` cannot panic). -/
def ApicTimer.is_periodic (t : ApicTimer) : Bool := t.timerModeBits == 1

/-- Model of `ApicTimer::stop_timer`. Always returns `Ok(())`; cancels through the
stored token when started, otherwise only warns. When started the token is
`Some` by definition of `is_started`, so `take().unwrap()` cannot panic and is
modelled with `getD`. -/
def ApicTimer.stop_timer (t : ApicTimer) : ApicTimer × List Event :=
  if t.is_started then
    ({ t with last_start_ticks := 0, deadline_ns := 0, cancel_token := none },
     [Event.cancelTimer (t.cancel_token.getD 0)])
  else (t, [])

/-- Model of `ApicTimer::start_timer`. -/
def ApicTimer.start_timer (t : ApicTimer) (env : Env) : ApicTimer × List Event × ExecRes :=
  if t.is_started then (t, [], .err .BadState)
  else
    let current_ticks := env.currentTicks
    let deadline_ticks := u64c (current_ticks + (u32c t.initial_count_register <<< t.divide_shift))
    let t' := { t with
      last_start_ticks := current_ticks
      deadline_ns := u64c (env.ticksToNanos deadline_ticks)
      cancel_token := some env.registerTimerToken }
    (t', [Event.registerTimer deadline_ticks t.vm_id t.vcpu_id t.vector], .ok)

/-- Model of `ApicTimer::write_icr`: unconditionally stop, store the value, and arm
again when the value is nonzero. -/
def ApicTimer.write_icr (t : ApicTimer) (env : Env) (value : Nat) :
    ApicTimer × List Event × ExecRes :=
  let s1 := t.stop_timer
  let t2 := { s1.1 with initial_count_register := value }
  if 0 < value then
    let s3 := t2.start_timer env
    (s3.1, s1.2 ++ s3.2.1, s3.2.2)
  else (t2, s1.2, .ok)

/-- Model of `ApicTimer::restart_timer`. -/
def ApicTimer.restart_timer (t : ApicTimer) (env : Env) : ApicTimer × List Event × ExecRes :=
  if !t.is_started then (t, [], .ok)
  else
    let s1 := t.stop_timer
    let s2 := s1.1.start_timer env
    (s2.1, s1.2 ++ s2.2.1, s2.2.2)

/-! ## `src/consts.rs` — register identities and the offset decoder -/

/-- Model of `ApicRegOffset` (src/consts.rs). The `ISRIndex`/`TMRIndex`/`IRRIndex`
eight-way index enums are modelled as `Fin 8`. -/
inductive ApicRegOffset where
  | ID
  | Version
  | TPR
  | APR
  | PPR
  | EOI
  | RRR
  | LDR
  | DFR
  | SIVR
  | ISR (i : Fin 8)
  | TMR (i : Fin 8)
  | IRR (i : Fin 8)
  | ESR
  | LvtCMCI
  | ICRLow
  | ICRHi
  | LvtTimer
  | LvtThermal
  | LvtPmc
  | LvtLint0
  | LvtLint1
  | LvtErr
  | TimerInitCount
  | TimerCurCount
  | TimerDivConf
  | SelfIPI
  deriving DecidableEq, Repr

/-- Model of `ApicRegOffset::from(value)` (src/consts.rs lines 120-153). The source
matches on `value as u32` (hence the `u32c`) and the final arm is
`panic!("Invalid APIC register offset")`, modelled as `none`: the function
diverges rather than reporting an error to its caller. The inner
`ISRIndex::from` etc. cannot panic because the range arms bound the index. -/
def ApicRegOffset.fromIndex (value : Nat) : Option ApicRegOffset :=
  let v := u32c value
  if v = 0x2 then some .ID
  else if v = 0x3 then some .Version
  else if v = 0x8 then some .TPR
  else if v = 0x9 then some .APR
  else if v = 0xA then some .PPR
  else if v = 0xB then some .EOI
  else if v = 0xC then some .RRR
  else if v = 0xD then some .LDR
  else if v = 0xE then some .DFR
  else if v = 0xF then some .SIVR
  else if h : 0x10 ≤ v ∧ v ≤ 0x17 then some (.ISR ⟨v - 0x10, by omega⟩)
  else if h : 0x18 ≤ v ∧ v ≤ 0x1F then some (.TMR ⟨v - 0x18, by omega⟩)
  else if h : 0x20 ≤ v ∧ v ≤ 0x27 then some (.IRR ⟨v - 0x20, by omega⟩)
  else if v = 0x28 then some .ESR
  else if v = 0x2F then some .LvtCMCI
  else if v = 0x30 then some .ICRLow
  else if v = 0x31 then some .ICRHi
  else if v = 0x32 then some .LvtTimer
  else if v = 0x33 then some .LvtThermal
  else if v = 0x34 then some .LvtPmc
  else if v = 0x35 then some .LvtLint0
  else if v = 0x36 then some .LvtLint1
  else if v = 0x37 then some .LvtErr
  else if v = 0x38 then some .TimerInitCount
  else if v = 0x39 then some .TimerCurCount
  else if v = 0x3E then some .TimerDivConf
  else if v = 0x3F then some .SelfIPI
  else none

/-- Model of `xapic::xapic_mmio_access_reg_offset(addr)`:
`ApicRegOffset::from((addr & (APIC_MMIO_SIZE - 1)) >> 4)`. -/
def xapic_mmio_access_reg_offset (addr : Nat) : Option ApicRegOffset :=
  ApicRegOffset.fromIndex ((addr &&& 0xFFF) >>> 4)

/-- The documented decodable register indices of the `0x00..=0x3F` window, as
listed by the spec and the `ApicRegOffset` doc comments. -/
def isDecodableIndex (v : Nat) : Bool :=
  (0x2 ≤ v && v ≤ 0x3) || (0x8 ≤ v && v ≤ 0x28) || v = 0x2F ||
  (0x30 ≤ v && v ≤ 0x39) || v = 0x3E || v = 0x3F

/-- Model of `APIC_LVT_M` (mask bit 16). -/
def APIC_LVT_M : Nat := 0x00010000
/-- Model of `APIC_LVT_DS` (delivery-status bit 12). -/
def APIC_LVT_DS : Nat := 0x00001000
/-- Model of `APIC_LVT_VECTOR` (vector bits 0..7). -/
def APIC_LVT_VECTOR : Nat := 0x000000FF
/-- Model of `RESET_LVT_REG = APIC_LVT_M`. -/
def RESET_LVT_REG : Nat := APIC_LVT_M
/-- Model of `RESET_SPURIOUS_INTERRUPT_VECTOR`. -/
def RESET_SPURIOUS_INTERRUPT_VECTOR : Nat := 0x000000FF

/-! ## `src/utils.rs` -/

/-- Model of `fls32` (src/utils.rs): most-significant set-bit index of a `u32`, or
`0xFFFF` for zero. `leading_zeros` of a nonzero `u32 v` is
`32 - (log2 v + 1)`, so the source's `31 - v.leading_zeros()` is as below. -/
def fls32 (value : Nat) : Nat :=
  if value = 0 then 0xFFFF
  else 31 - (32 - (Nat.log2 value + 1))

/-! ## `src/vlapic.rs` — the virtual-APIC register file -/

/-- The 4-KiB virtual-APIC page (`LocalAPICRegs`, src/regs/mod.rs). Each field
is a 32-bit cell except the ISR/TMR/IRR banks which are `[ReadOnly<u128>; 8]`
(only the low 32 bits of each 16-byte stride are live). -/
structure LocalAPICRegs where
  ID : Nat
  VERSION : Nat
  TPR : Nat
  APR : Nat
  PPR : Nat
  EOI : Nat
  RRD : Nat
  LDR : Nat
  DFR : Nat
  SVR : Nat
  ISR : Fin 8 → Nat
  TMR : Fin 8 → Nat
  IRR : Fin 8 → Nat
  ESR : Nat
  LVT_CMCI : Nat
  ICR_LO : Nat
  ICR_HI : Nat
  LVT_TIMER : Nat
  LVT_THERMAL : Nat
  LVT_PMI : Nat
  LVT_LINT0 : Nat
  LVT_LINT1 : Nat
  LVT_ERROR : Nat
  ICR_TIMER : Nat
  CCR_TIMER : Nat
  DCR_TIMER : Nat
  SELF_IPI : Nat

/-- Model of `LocalVectorTable` (src/regs/lvt/mod.rs): the LVT shadow copies. -/
structure LocalVectorTable where
  lvt_cmci : Nat
  lvt_timer : Nat
  lvt_thermal : Nat
  lvt_perf_count : Nat
  lvt_lint0 : Nat
  lvt_lint1 : Nat
  lvt_err : Nat
  deriving DecidableEq, Repr

/-- Model of `VirtualApicRegs` (src/vlapic.rs). `esr_firing` is an `i32` holding only
0 or 1. -/
structure VirtualApicRegs where
  regs : LocalAPICRegs
  vapic_id : Nat
  esr_pending : Nat
  esr_firing : Nat
  virtual_timer : ApicTimer
  isrv : Nat
  apic_base : Nat
  svr_last : Nat
  lvt_last : LocalVectorTable

/-- Safe read of an ISR/TMR/IRR bank used where the source loops over constant
indices `0..=7` (never out of bounds). -/
def bankGet (f : Fin 8 → Nat) (i : Nat) : Nat :=
  if h : i < 8 then f ⟨i, h⟩ else 0

/-- Checked read of a bank at a computed index; `none` models the Rust
index-out-of-bounds panic. -/
def bankGetChecked (f : Fin 8 → Nat) (i : Nat) : Option Nat :=
  if h : i < 8 then some (f ⟨i, h⟩) else none

/-- Write a bank at a computed index (used only after a checked read). -/
def bankSet (f : Fin 8 → Nat) (i : Nat) (v : Nat) : Fin 8 → Nat :=
  fun j => if j.val = i then v else f j

/-- Model of `VirtualApicRegs::is_x2apic_enabled`: `APIC_BASE::XAPIC_ENABLED` (bit 11)
and `APIC_BASE::X2APIC_Enabled` (bit 10) of the APIC-base MSR. -/
def VirtualApicRegs.is_x2apic_enabled (s : VirtualApicRegs) : Bool :=
  (u64c s.apic_base).testBit 11 && (u64c s.apic_base).testBit 10

/-- Model of `VirtualApicRegs::is_xapic_enabled`. -/
def VirtualApicRegs.is_xapic_enabled (s : VirtualApicRegs) : Bool :=
  (u64c s.apic_base).testBit 11 && !((u64c s.apic_base).testBit 10)

/-- Model of `extract_index_and_bitpos_u32(vector)`. -/
def extract_index_and_bitpos_u32 (vector : Nat) : Nat × Nat :=
  (vector >>> 5, vector &&& 0x1F)

/-- Model of `prio(x)` (src/vlapic.rs): the task-priority class `(x >> 4) & 0xf`. -/
def prio (x : Nat) : Nat := (x >>> 4) &&& 0xF

/-- Model of `VirtualApicRegs::find_isrv`'s loop, `i` effectively ranging from 7 down
to 1 and stopping at the first nonzero bank; the bank value is read
`as u32`. Bank 0 (vectors 0..31) is never inspected. -/
def findIsrvLoop (isr : Fin 8 → Nat) : Nat → Nat
  | 0 => 0
  | n + 1 =>
      let val := u32c (bankGet isr (n + 1))
      if val ≠ 0 then ((n + 1) <<< 5) ||| fls32 val
      else findIsrvLoop isr n

/-- Model of `VirtualApicRegs::find_isrv`. -/
def VirtualApicRegs.find_isrv (s : VirtualApicRegs) : Nat :=
  findIsrvLoop s.regs.ISR 7

/-- Model of `VirtualApicRegs::update_ppr`. -/
def VirtualApicRegs.update_ppr (s : VirtualApicRegs) : VirtualApicRegs :=
  let isrv := s.isrv
  let tpr := u32c s.regs.TPR
  let ppr := if prio tpr ≥ prio isrv then tpr else isrv &&& 0xF0
  { s with regs := { s.regs with PPR := ppr } }

/-- Model of `VirtualApicRegs::process_eoi`. Mirrors the source: early return when
`isrv` is 0; otherwise clear ISR bit `isrv` (the bank is a `u128` cell),
recompute `isrv` and PPR, then reach one of the two `unimplemented!`
collaborator stubs (EOI broadcast when the TMR bit is set, else
`vcpu_make_request`); `.panicked` models the out-of-bounds bank index that an
`isrv ≥ 256` would cause. -/
def VirtualApicRegs.process_eoi (s : VirtualApicRegs) : VirtualApicRegs × List Event × ExecRes :=
  let vector := s.isrv
  if vector = 0 then (s, [], .ok)
  else
    let idx := (extract_index_and_bitpos_u32 vector).1
    let bitpos := (extract_index_and_bitpos_u32 vector).2
    match bankGetChecked s.regs.ISR idx with
    | none => (s, [], .panicked)
    | some isr =>
      let isr := isr &&& u128compl (1 <<< bitpos)
      let s := { s with regs := { s.regs with ISR := bankSet s.regs.ISR idx isr } }
      let s := { s with isrv := s.find_isrv }
      let s := s.update_ppr
      match bankGetChecked s.regs.TMR idx with
      | none => (s, [], .panicked)
      | some tmr =>
        if (u32c tmr).testBit bitpos then
          (s, [Event.vioapicBroadcastEoi vector], .stub)
        else
          (s, [Event.vcpuMakeRequest], .stub)

/-- Model of `VirtualApicRegs::set_err(mask)`: `esr_pending.modify(mask)` for a
tock-registers `FieldValue` with mask `fieldMask` and value bits `fieldValue`,
then `esr_firing = 1`. The guarded `if self.esr_firing == 0` body is dead code
(the flag was just set to 1), so the `unimplemented!` inside it is never
reached. -/
def VirtualApicRegs.set_err (s : VirtualApicRegs) (fieldMask fieldValue : Nat) :
    VirtualApicRegs :=
  { s with
    esr_pending := (u32c s.esr_pending &&& u32compl fieldMask) ||| fieldValue
    esr_firing := 1 }

/-- Model of `INTERRUPT_COMMAND_LOW::DeliveryMode::Value` (src/regs/icr.rs). -/
inductive APICDeliveryMode where
  | Fixed
  | LowestPriority
  | SMI
  | Reserved011
  | NMI
  | INIT
  | StartUp
  | Reserved111
  deriving DecidableEq, Repr

/-- Model of `read_as_enum` on the 3-bit `DeliveryMode` field: every encoding is named,
so the read always yields `some`. -/
def deliveryModeOfBits (bits : Nat) : Option APICDeliveryMode :=
  match bits with
  | 0b000 => some .Fixed
  | 0b001 => some .LowestPriority
  | 0b010 => some .SMI
  | 0b011 => some .Reserved011
  | 0b100 => some .NMI
  | 0b101 => some .INIT
  | 0b110 => some .StartUp
  | 0b111 => some .Reserved111
  | _ => none

/-- Model of `INTERRUPT_COMMAND_LOW::DestinationShorthand::Value` (src/regs/icr.rs). -/
inductive APICDestination where
  | NoShorthand
  | SELF
  | AllIncludingSelf
  | AllExcludingSelf
  deriving DecidableEq, Repr

/-- Model of `read_as_enum` on the 2-bit `DestinationShorthand` field (total). -/
def shorthandOfBits (bits : Nat) : Option APICDestination :=
  match bits with
  | 0b00 => some .NoShorthand
  | 0b01 => some .SELF
  | 0b10 => some .AllIncludingSelf
  | 0b11 => some .AllExcludingSelf
  | _ => none

/-- Model of `DESTINATION_FORMAT::Model::Value` (src/regs/dfr.rs): `Flat = 0b1111`,
`Cluster = 0b0000`; any other encoding fails to parse. -/
inductive APICDestinationFormat where
  | Flat
  | Cluster
  deriving DecidableEq, Repr

/-- Model of `read_as_enum` on the 4-bit `DESTINATION_FORMAT::Model` field. -/
def dfrModelOfBits (bits : Nat) : Option APICDestinationFormat :=
  match bits with
  | 0b1111 => some .Flat
  | 0b0000 => some .Cluster
  | _ => none

/-- Model of `VirtualApicRegs::is_dest_field_matched` (flat/cluster LDR matching in
xAPIC mode; always true in x2APIC mode). -/
def VirtualApicRegs.is_dest_field_matched (s : VirtualApicRegs) (dest : Nat) :
    Except AxError Bool :=
  let ldr := u32c s.regs.LDR
  if s.is_x2apic_enabled then .ok true
  else
    match dfrModelOfBits ((u32c s.regs.DFR >>> 28) &&& 0xF) with
    | none => .error .InvalidData
    | some .Flat =>
        let logical_id := ldr >>> 24
        let dest_logical_id := dest &&& 0xFF
        .ok (decide ((logical_id &&& dest_logical_id) ≠ 0))
    | some .Cluster =>
        let logical_id := (ldr >>> 24) &&& 0xF
        let cluster_id := ldr >>> 28
        let dest_logical_id := dest &&& 0xF
        let dest_cluster_id := (dest >>> 4) &&& 0xF
        .ok (decide (cluster_id = dest_cluster_id ∧ (logical_id &&& dest_logical_id) ≠ 0))

/-- The logical-mode loop of `calculate_dest_no_shorthand`: for each
`i < n`, when `vcpu_mask` bit `i` is set and the LDR/DFR match succeeds,
set bit `i` of `dmask`. Errors of the match abort the loop at the first
active vCPU (the match does not depend on `i` in the source). -/
def calcLogicalLoop (s : VirtualApicRegs) (dest vcpuMask : Nat) : Nat → Except AxError Nat
  | 0 => .ok 0
  | n + 1 =>
      match calcLogicalLoop s dest vcpuMask n with
      | .error e => .error e
      | .ok dmask =>
          if vcpuMask.testBit n then
            match s.is_dest_field_matched dest with
            | .error e => .error e
            | .ok true => .ok (dmask ||| (1 <<< n))
            | .ok false => .ok dmask
          else .ok dmask

/-- Result of destination calculation: a vCPU bitmask, an error, or the
`unimplemented!("lowprio")` stub. -/
inductive DestRes where
  | ok (dmask : Nat)
  | err (e : AxError)
  | stub
  deriving DecidableEq, Repr

/-- Model of `VirtualApicRegs::calculate_dest_no_shorthand`. -/
def VirtualApicRegs.calculate_dest_no_shorthand (s : VirtualApicRegs) (env : Env)
    (is_broadcast : Bool) (dest : Nat) (is_phys lowprio : Bool) : DestRes :=
  if is_broadcast then .ok (u64c env.currentVmActiveVcpus)
  else if is_phys then .ok (1 <<< dest)
  else if lowprio then .stub
  else
    match calcLogicalLoop s dest (u64c env.activeVcpusOfCurrentVm) env.currentVmVcpuNum with
    | .error e => .err e
    | .ok dmask => .ok dmask

/-- Model of `VirtualApicRegs::calculate_dest`. -/
def VirtualApicRegs.calculate_dest (s : VirtualApicRegs) (env : Env)
    (shorthand : APICDestination) (is_broadcast : Bool) (dest : Nat)
    (is_phys lowprio : Bool) : DestRes :=
  match shorthand with
  | .NoShorthand => s.calculate_dest_no_shorthand env is_broadcast dest is_phys lowprio
  | .SELF => .ok (1 <<< s.vapic_id)
  | .AllIncludingSelf => .ok (u64c env.currentVmActiveVcpus)
  | .AllExcludingSelf => .ok (u64c env.currentVmActiveVcpus &&& u64compl (1 <<< s.vapic_id))

/-- Model of `LAPIC_TRIG_EDGE`. -/
def LAPIC_TRIG_EDGE : Bool := false

/-- The per-vCPU dispatch loop at the end of `write_icr`: scan vCPU ids
`i, i+1, ...` for `remaining` steps; the first selected vCPU with a
delivering mode reaches an `unimplemented!` stub (`set_intr`, `inject_nmi`,
`process_init_sipi`); SMI and reserved modes only log and continue. -/
def dispatchLoop (dmask vec : Nat) (mode : APICDeliveryMode) (icrLow : Nat) :
    Nat → Nat → List Event × ExecRes
  | _, 0 => ([], .ok)
  | i, r + 1 =>
      if dmask.testBit i then
        match mode with
        | .Fixed => ([Event.setIntr i vec LAPIC_TRIG_EDGE], .stub)
        | .NMI => ([Event.injectNmi i], .stub)
        | .INIT => ([Event.initSipi i 0b101 icrLow], .stub)
        | .StartUp => ([Event.initSipi i 0b110 icrLow], .stub)
        | _ => dispatchLoop dmask vec mode icrLow (i + 1) r
      else dispatchLoop dmask vec mode icrLow (i + 1) r

/-- Model of `VirtualApicRegs::write_icr` (src/vlapic.rs lines 443-515): clear the
delivery-status bit of ICR_LO, decode destination/mode/shorthand, capture
illegal fixed vectors (< 16) in the pending ESR, silently drop invalid
self-shorthand combinations, otherwise compute the destination mask and
dispatch. -/
def VirtualApicRegs.write_icr (s : VirtualApicRegs) (env : Env) :
    VirtualApicRegs × List Event × ExecRes :=
  let s := { s with regs := { s.regs with
    ICR_LO := u32c s.regs.ICR_LO &&& u32compl (1 <<< 12) } }
  let icr_low := s.regs.ICR_LO
  let db : Nat × Bool :=
    if s.is_x2apic_enabled then
      (u32c s.regs.ICR_HI, decide (u32c s.regs.ICR_HI = 0xFFFFFFFF))
    else
      let d := (u32c s.regs.ICR_HI >>> 24) &&& 0xFF
      (d, decide (d = 0xFF))
  let dest := db.1
  let is_broadcast := db.2
  let vec := icr_low &&& 0xFF
  match deliveryModeOfBits ((icr_low >>> 8) &&& 0b111) with
  | none => (s, [], .err .InvalidData)
  | some mode =>
    let is_phys := icr_low.testBit 11
    match shorthandOfBits ((icr_low >>> 18) &&& 0b11) with
    | none => (s, [], .err .InvalidData)
    | some shorthand =>
      if mode = .Fixed ∧ vec < 16 then
        (s.set_err (1 <<< 5) (1 <<< 5), [], .ok)
      else if (shorthand = .SELF ∨ shorthand = .AllIncludingSelf) ∧
          (mode = .NMI ∨ mode = .INIT ∨ mode = .StartUp) then
        (s, [], .ok)
      else
        match s.calculate_dest env shorthand is_broadcast dest is_phys false with
        | .err e => (s, [], .err e)
        | .stub => (s, [], .stub)
        | .ok dmask =>
            let lr := dispatchLoop dmask vec mode icr_low 0 env.currentVmVcpuNum
            (s, lr.1, lr.2)

/-! ### LVT write path -/

/-- Model of `LVT_TIMER::TimerMode::SET.mask()` — bits 17..18. -/
def LVT_TIMER_TIMERMODE_MASK : Nat := 0x60000
/-- Model of `LVT_LINT0::TriggerMode::SET.mask()` — bit 15. -/
def LVT_LINT0_TRIGGERMODE_MASK : Nat := 0x8000
/-- Model of `LVT_LINT0::RemoteIRR::SET.mask()` — bit 14. -/
def LVT_LINT0_REMOTEIRR_MASK : Nat := 0x4000
/-- Model of `LVT_LINT0::InterruptInputPinPolarity::SET.mask()` — bit 13. -/
def LVT_LINT0_POLARITY_MASK : Nat := 0x2000
/-- Model of `LVT_LINT0::DeliveryMode::SET.mask()` — bits 8..10. -/
def LVT_LINT0_DELIVERYMODE_MASK : Nat := 0x700
/-- Modelled from the spec: the bit fields of `LVT_LINT1` (its defining file
`src/regs/lvt/lint1.rs` is declared in `src/regs/lvt/mod.rs` but missing from
the sources). Per spec §4.C the LINT1 writable bits are the same as LINT0:
trigger-mode\[15\], remote-IRR\[14\], polarity\[13\], delivery-mode\[8..10\]. -/
def LVT_LINT1_EXTRA_MASK : Nat :=
  LVT_LINT0_TRIGGERMODE_MASK ||| LVT_LINT0_REMOTEIRR_MASK |||
  LVT_LINT0_POLARITY_MASK ||| LVT_LINT0_DELIVERYMODE_MASK
/-- Model of `LVT_CMCI::DeliveryMode::SET.mask()` (same field placement for CMCI,
performance-counter and thermal LVTs) — bits 8..10. -/
def LVT_DELIVERYMODE_MASK : Nat := 0x700

/-- Model of `VirtualApicRegs::extract_lvt_val`: read the page cell of an LVT register
(`as u32`); unsupported offsets yield 0 with a warning. -/
def VirtualApicRegs.extract_lvt_val (s : VirtualApicRegs) (offset : ApicRegOffset) : Nat :=
  match offset with
  | .LvtCMCI => u32c s.regs.LVT_CMCI
  | .LvtTimer => u32c s.regs.LVT_TIMER
  | .LvtThermal => u32c s.regs.LVT_THERMAL
  | .LvtPmc => u32c s.regs.LVT_PMI
  | .LvtLint0 => u32c s.regs.LVT_LINT0
  | .LvtLint1 => u32c s.regs.LVT_LINT1
  | .LvtErr => u32c s.regs.LVT_ERROR
  | _ => 0

/-- Model of `VirtualApicRegs::write_lvt` (src/vlapic.rs lines 533-623). Note the
source ORs in `APIC_LVT_M` when the SVR software-enable bit (bit 8) IS SET —
i.e. when the APIC is software-enabled — not when it is 0. The LINT0 ExtINT
wire-mode checks only log warnings and change no state. -/
def VirtualApicRegs.write_lvt (s : VirtualApicRegs) (offset : ApicRegOffset) :
    VirtualApicRegs × List Event × ExecRes :=
  let val := s.extract_lvt_val offset
  let val := if (u32c s.regs.SVR).testBit 8 then val ||| APIC_LVT_M else val
  let mask := APIC_LVT_M ||| APIC_LVT_DS ||| APIC_LVT_VECTOR
  match offset with
  | .LvtTimer =>
      let mask := mask ||| LVT_TIMER_TIMERMODE_MASK
      let val := val &&& mask
      let s := { s with
        regs := { s.regs with LVT_TIMER := val }
        lvt_last := { s.lvt_last with lvt_timer := val } }
      ({ s with virtual_timer := s.virtual_timer.write_lvt val }, [], .ok)
  | .LvtErr =>
      let val := val &&& mask
      ({ s with
        regs := { s.regs with LVT_ERROR := val }
        lvt_last := { s.lvt_last with lvt_err := val } }, [], .ok)
  | .LvtLint0 =>
      let mask := mask ||| LVT_LINT0_TRIGGERMODE_MASK ||| LVT_LINT0_REMOTEIRR_MASK |||
        LVT_LINT0_POLARITY_MASK ||| LVT_LINT0_DELIVERYMODE_MASK
      let val := val &&& mask
      ({ s with
        regs := { s.regs with LVT_LINT0 := val }
        lvt_last := { s.lvt_last with lvt_lint0 := val } }, [], .ok)
  | .LvtLint1 =>
      let mask := mask ||| LVT_LINT1_EXTRA_MASK
      let val := val &&& mask
      ({ s with
        regs := { s.regs with LVT_LINT1 := val }
        lvt_last := { s.lvt_last with lvt_lint1 := val } }, [], .ok)
  | .LvtCMCI =>
      let mask := mask ||| LVT_DELIVERYMODE_MASK
      let val := val &&& mask
      ({ s with
        regs := { s.regs with LVT_CMCI := val }
        lvt_last := { s.lvt_last with lvt_cmci := val } }, [], .ok)
  | .LvtPmc =>
      let mask := mask ||| LVT_DELIVERYMODE_MASK
      let val := val &&& mask
      ({ s with
        regs := { s.regs with LVT_PMI := val }
        lvt_last := { s.lvt_last with lvt_perf_count := val } }, [], .ok)
  | .LvtThermal =>
      let mask := mask ||| LVT_DELIVERYMODE_MASK
      let val := val &&& mask
      ({ s with
        regs := { s.regs with LVT_THERMAL := val }
        lvt_last := { s.lvt_last with lvt_thermal := val } }, [], .ok)
  | _ => (s, [], .err .InvalidInput)

/-- One step of `mask_lvts`: `self.regs().X.modify(Mask::SET)` on the page
cell of `offset` followed by `write_lvt(offset)`. -/
def VirtualApicRegs.maskLvtStep (s : VirtualApicRegs) (offset : ApicRegOffset) :
    VirtualApicRegs × List Event × ExecRes :=
  let withMask := fun v => (u32c v &&& u32compl APIC_LVT_M) ||| APIC_LVT_M
  let s :=
    match offset with
    | .LvtCMCI => { s with regs := { s.regs with LVT_CMCI := withMask s.regs.LVT_CMCI } }
    | .LvtTimer => { s with regs := { s.regs with LVT_TIMER := withMask s.regs.LVT_TIMER } }
    | .LvtThermal => { s with regs := { s.regs with LVT_THERMAL := withMask s.regs.LVT_THERMAL } }
    | .LvtPmc => { s with regs := { s.regs with LVT_PMI := withMask s.regs.LVT_PMI } }
    | .LvtLint0 => { s with regs := { s.regs with LVT_LINT0 := withMask s.regs.LVT_LINT0 } }
    | .LvtLint1 => { s with regs := { s.regs with LVT_LINT1 := withMask s.regs.LVT_LINT1 } }
    | .LvtErr => { s with regs := { s.regs with LVT_ERROR := withMask s.regs.LVT_ERROR } }
    | _ => s
  s.write_lvt offset

/-- Sequencing of fallible steps threading the event log (the `?` operator of
the source methods). -/
def andThen (prev : VirtualApicRegs × List Event × ExecRes)
    (f : VirtualApicRegs → VirtualApicRegs × List Event × ExecRes) :
    VirtualApicRegs × List Event × ExecRes :=
  match prev with
  | (s, evs, .ok) =>
      let r := f s
      (r.1, evs ++ r.2.1, r.2.2)
  | other => other

/-- Model of `VirtualApicRegs::mask_lvts`: set the mask bit on every LVT page cell and
re-run `write_lvt` for each, in source order. -/
def VirtualApicRegs.mask_lvts (s : VirtualApicRegs) : VirtualApicRegs × List Event × ExecRes :=
  andThen (andThen (andThen (andThen (andThen (andThen
    (s.maskLvtStep .LvtCMCI)
    (fun s => s.maskLvtStep .LvtTimer))
    (fun s => s.maskLvtStep .LvtThermal))
    (fun s => s.maskLvtStep .LvtPmc))
    (fun s => s.maskLvtStep .LvtLint0))
    (fun s => s.maskLvtStep .LvtLint1))
    (fun s => s.maskLvtStep .LvtErr)

/-! ### SVR / ESR / LDR / DFR / timer glue -/

/-- Model of `VirtualApicRegs::write_svr` (handle software-enable transitions). -/
def VirtualApicRegs.write_svr (s : VirtualApicRegs) (env : Env) :
    VirtualApicRegs × List Event × ExecRes :=
  let new := u32c s.regs.SVR
  let old := s.svr_last
  let s := { s with svr_last := new }
  if (u32c old).testBit 8 && !(new.testBit 8) then
    let st := s.virtual_timer.stop_timer
    let s := { s with virtual_timer := st.1 }
    let r := s.mask_lvts
    (r.1, st.2 ++ r.2.1, r.2.2)
  else if !((u32c old).testBit 8) && new.testBit 8 then
    if s.virtual_timer.is_periodic then
      let r := s.virtual_timer.restart_timer env
      ({ s with virtual_timer := r.1 }, r.2.1, r.2.2)
    else (s, [], .ok)
  else (s, [], .ok)

/-- Model of `VirtualApicRegs::write_esr`: freeze `esr_pending` into the page ESR and
clear the accumulator. -/
def VirtualApicRegs.write_esr (s : VirtualApicRegs) : VirtualApicRegs :=
  { s with
    regs := { s.regs with ESR := u32c s.esr_pending }
    esr_pending := 0 }

/-- Model of `VirtualApicRegs::write_ldr`: keep only bits 24..31 of the stored LDR. -/
def VirtualApicRegs.write_ldr (s : VirtualApicRegs) : VirtualApicRegs :=
  { s with regs := { s.regs with
    LDR := u32c s.regs.LDR &&& u32compl 0x00FFFFFF } }

/-- Model of `VirtualApicRegs::write_dfr`: keep the model bits 28..31, set the reserved
low 28 bits to 1. -/
def VirtualApicRegs.write_dfr (s : VirtualApicRegs) : VirtualApicRegs :=
  { s with regs := { s.regs with
    DFR := (u32c s.regs.DFR &&& 0xF0000000) ||| 0x0FFFFFFF } }

/-- Model of `TimerMode` of `crate::timer`. -/
inductive TimerMode where
  | OneShot
  | Periodic
  | TscDeadline
  deriving DecidableEq, Repr

/-- Model of `VirtualApicRegs::timer_mode`: parse `LVT_TIMER` bits 17..18 of the page;
the reserved encoding 0b11 is `InvalidData`. -/
def VirtualApicRegs.timer_mode (s : VirtualApicRegs) : Except AxError TimerMode :=
  match (u32c s.regs.LVT_TIMER >>> 17) &&& 0b11 with
  | 0 => .ok .OneShot
  | 1 => .ok .Periodic
  | 2 => .ok .TscDeadline
  | _ => .error .InvalidData

/-- Model of `VirtualApicRegs::write_icrtmr`: forward the page ICR_TIMER value to the
timer. -/
def VirtualApicRegs.write_icrtmr (s : VirtualApicRegs) (env : Env) :
    VirtualApicRegs × List Event × ExecRes :=
  let r := s.virtual_timer.write_icr env (u32c s.regs.ICR_TIMER)
  ({ s with virtual_timer := r.1 }, r.2.1, r.2.2)

/-- Model of `VirtualApicRegs::write_dcr` (the vlapic-level wrapper): forward the page
DCR_TIMER value to the timer; `.panicked` models the timer's `unreachable!`
(which is in fact dead, see the totality theorem below). -/
def VirtualApicRegs.write_dcr (s : VirtualApicRegs) : VirtualApicRegs × List Event × ExecRes :=
  match s.virtual_timer.write_dcr (u32c s.regs.DCR_TIMER) with
  | some t => ({ s with virtual_timer := t }, [], .ok)
  | none => (s, [], .panicked)

/-- Model of `axaddrspace::device::AccessWidth`. -/
inductive AccessWidth where
  | Byte
  | Word
  | Dword
  | Qword
  deriving DecidableEq, Repr

/-- Model of `VirtualApicRegs::handle_read` (src/vlapic.rs lines 680-792). The state is
threaded unchanged through every arm — the source performs no writes on the
read path — and the value (or the `InvalidInput` error for an ICR width/mode
mismatch) is returned. Reading EOI leaves `value` at 0; LVT reads return the
shadow (`lvt_last`), not the page; unknown registers read as 0 with a
warning. -/
def VirtualApicRegs.handle_read (s : VirtualApicRegs) (env : Env)
    (offset : ApicRegOffset) (width : AccessWidth) :
    VirtualApicRegs × Except AxError Nat :=
  match offset with
  | .ID => (s, .ok (u32c s.regs.ID))
  | .Version => (s, .ok (u32c s.regs.VERSION))
  | .TPR => (s, .ok (u32c s.regs.TPR))
  | .PPR => (s, .ok (u32c s.regs.PPR))
  | .EOI => (s, .ok 0)
  | .LDR => (s, .ok (u32c s.regs.LDR))
  | .DFR => (s, .ok (u32c s.regs.DFR))
  | .SIVR => (s, .ok (u32c s.regs.SVR))
  | .ISR i => (s, .ok (u32c (s.regs.ISR i)))
  | .TMR i => (s, .ok (u32c (s.regs.TMR i)))
  | .IRR i => (s, .ok (u32c (s.regs.IRR i)))
  | .ESR => (s, .ok (u32c s.regs.ESR))
  | .ICRLow =>
      let value := u32c s.regs.ICR_LO
      if s.is_x2apic_enabled && decide (width = .Qword) then
        (s, .ok (value ||| (u32c s.regs.ICR_HI <<< 32)))
      else if xor s.is_x2apic_enabled (decide (width = .Qword)) then
        (s, .error .InvalidInput)
      else (s, .ok value)
  | .ICRHi => (s, .ok (u32c s.regs.ICR_HI))
  | .LvtCMCI => (s, .ok (u32c s.lvt_last.lvt_cmci))
  | .LvtTimer => (s, .ok (u32c s.lvt_last.lvt_timer))
  | .LvtThermal => (s, .ok (u32c s.lvt_last.lvt_thermal))
  | .LvtPmc => (s, .ok (u32c s.lvt_last.lvt_perf_count))
  | .LvtLint0 => (s, .ok (u32c s.lvt_last.lvt_lint0))
  | .LvtLint1 => (s, .ok (u32c s.lvt_last.lvt_lint1))
  | .LvtErr => (s, .ok (u32c s.lvt_last.lvt_err))
  | .TimerInitCount =>
      (s, .ok (match s.timer_mode with
        | .ok .OneShot | .ok .Periodic => u32c s.regs.ICR_TIMER
        | .ok .TscDeadline => 0
        | .error _ => 0))
  | .TimerCurCount => (s, .ok (s.virtual_timer.read_ccr env))
  | .TimerDivConf => (s, .ok (u32c s.regs.DCR_TIMER))
  | _ => (s, .ok 0)

/-- Model of `VirtualApicRegs::handle_write` (src/vlapic.rs lines 794-908). `val` is
truncated to `data32 = val as u32`; the ID write is silently ignored; unknown
or unsupported registers are rejected with `InvalidInput`. -/
def VirtualApicRegs.handle_write (s : VirtualApicRegs) (env : Env)
    (offset : ApicRegOffset) (val : Nat) (width : AccessWidth) :
    VirtualApicRegs × List Event × ExecRes :=
  let data32 := u32c val
  match offset with
  | .ID => (s, [], .ok)
  | .EOI => s.process_eoi
  | .LDR =>
      let s := { s with regs := { s.regs with LDR := data32 } }
      (s.write_ldr, [], .ok)
  | .DFR =>
      let s := { s with regs := { s.regs with DFR := data32 } }
      (s.write_dfr, [], .ok)
  | .SIVR =>
      let s := { s with regs := { s.regs with SVR := data32 } }
      s.write_svr env
  | .ESR =>
      let s := { s with regs := { s.regs with ESR := data32 } }
      (s.write_esr, [], .ok)
  | .ICRLow =>
      if s.is_x2apic_enabled && decide (width = .Qword) then
        let s := { s with regs := { s.regs with ICR_HI := u32c (val >>> 32) } }
        let s := { s with regs := { s.regs with ICR_LO := data32 } }
        s.write_icr env
      else if xor s.is_x2apic_enabled (decide (width = .Qword)) then
        (s, [], .err .InvalidInput)
      else
        let s := { s with regs := { s.regs with ICR_LO := data32 } }
        s.write_icr env
  | .LvtCMCI =>
      let s := { s with regs := { s.regs with LVT_CMCI := data32 } }
      s.write_lvt offset
  | .LvtTimer =>
      let s := { s with regs := { s.regs with LVT_TIMER := data32 } }
      s.write_lvt offset
  | .LvtThermal =>
      let s := { s with regs := { s.regs with LVT_THERMAL := data32 } }
      s.write_lvt offset
  | .LvtPmc =>
      let s := { s with regs := { s.regs with LVT_PMI := data32 } }
      s.write_lvt offset
  | .LvtLint0 =>
      let s := { s with regs := { s.regs with LVT_LINT0 := data32 } }
      s.write_lvt offset
  | .LvtLint1 =>
      let s := { s with regs := { s.regs with LVT_LINT1 := data32 } }
      s.write_lvt offset
  | .LvtErr =>
      let s := { s with regs := { s.regs with LVT_ERROR := data32 } }
      s.write_lvt offset
  | .TimerInitCount =>
      match s.timer_mode with
      | .error e => (s, [], .err e)
      | .ok .TscDeadline => (s, [], .ok)
      | .ok _ =>
          let s := { s with regs := { s.regs with ICR_TIMER := data32 } }
          s.write_icrtmr env
  | .TimerDivConf =>
      let s := { s with regs := { s.regs with DCR_TIMER := data32 } }
      s.write_dcr
  | .SelfIPI =>
      if s.is_x2apic_enabled then
        let s := { s with regs := { s.regs with SELF_IPI := data32 } }
        (s, [Event.selfIpiStub], .stub)
      else (s, [], .err .InvalidInput)
  | _ => (s, [], .err .InvalidInput)

/-! ## Reset state (`VirtualApicRegs::new`) and concrete test fixtures -/

/-- A zero-filled virtual-APIC page (`PhysFrame::alloc_zero`). -/
def LocalAPICRegs.zeroed : LocalAPICRegs where
  ID := 0
  VERSION := 0
  TPR := 0
  APR := 0
  PPR := 0
  EOI := 0
  RRD := 0
  LDR := 0
  DFR := 0
  SVR := 0
  ISR := fun _ => 0
  TMR := fun _ => 0
  IRR := fun _ => 0
  ESR := 0
  LVT_CMCI := 0
  ICR_LO := 0
  ICR_HI := 0
  LVT_TIMER := 0
  LVT_THERMAL := 0
  LVT_PMI := 0
  LVT_LINT0 := 0
  LVT_LINT1 := 0
  LVT_ERROR := 0
  ICR_TIMER := 0
  CCR_TIMER := 0
  DCR_TIMER := 0
  SELF_IPI := 0

/-- Model of `LocalVectorTable::default()`: every shadow is `RESET_LVT_REG`. -/
def LocalVectorTable.default : LocalVectorTable where
  lvt_cmci := RESET_LVT_REG
  lvt_timer := RESET_LVT_REG
  lvt_thermal := RESET_LVT_REG
  lvt_perf_count := RESET_LVT_REG
  lvt_lint0 := RESET_LVT_REG
  lvt_lint1 := RESET_LVT_REG
  lvt_err := RESET_LVT_REG

/-- Model of `VirtualApicRegs::new(vm_id, vcpu_id)`. -/
def VirtualApicRegs.new (vmId vcpuId : Nat) : VirtualApicRegs where
  regs := LocalAPICRegs.zeroed
  vapic_id := vcpuId
  esr_pending := 0
  esr_firing := 0
  virtual_timer := ApicTimer.new vmId vcpuId
  isrv := 0
  apic_base := 0
  svr_last := RESET_SPURIOUS_INTERRUPT_VECTOR
  lvt_last := LocalVectorTable.default

/-- A fixed collaborator environment for concrete evaluations: identity
tick/nanosecond conversion, one vCPU. -/
def envFixture : Env where
  currentTicks := 0
  ticksToNanos := id
  nanosToTicks := id
  currentTimeNanos := 0
  registerTimerToken := 7
  currentVmActiveVcpus := 1
  activeVcpusOfCurrentVm := 1
  currentVmVcpuNum := 1

/-! ## Derived definitions and concrete fixtures used by the theorems -/

/-- Whether vector `w`'s bit is set in a 256-bit ISR/TMR/IRR array: bank
`w / 32` (low 32 bits), bit `w % 32`. -/
def isrVectorBitSet (f : Fin 8 → Nat) (w : Nat) : Bool :=
  (u32c (bankGet f (w >>> 5))).testBit (w % 32)

/-- A concrete started timer whose deadline (10 ns) lies in the past. -/
def ccrFixtureTimer : ApicTimer :=
  { ApicTimer.new 0 0 with
    initial_count_register := 1000
    divide_shift := 0
    deadline_ns := 10
    cancel_token := some 7 }

/-- A collaborator environment whose clock reads 20 ns, past the fixture's
deadline, with identity nanosecond/tick conversion. -/
def ccrFixtureEnv : Env := { envFixture with currentTimeNanos := 20 }

/-- A freshly constructed vLAPIC: the page SVR is 0, so the SVR
software-enable bit (bit 8) is 0 — the APIC is software-disabled. -/
def svrDisabledFixture : VirtualApicRegs := VirtualApicRegs.new 0 0

/-- The same vLAPIC with the page SVR set to `0x1FF` (software-enable bit 8
set). -/
def svrEnabledFixture : VirtualApicRegs :=
  { VirtualApicRegs.new 0 0 with regs := { LocalAPICRegs.zeroed with SVR := 0x1FF } }

/-- A state about to issue a Fixed IPI with illegal vector 5
(`ICR_LO = 0x0000_0005`). -/
def illegalIpiFixture : VirtualApicRegs :=
  { VirtualApicRegs.new 0 0 with regs := { LocalAPICRegs.zeroed with ICR_LO := 5 } }

/-- The state reached by `process_eoi` for a nonzero `isrv` (before the
trailing collaborator stubs): ISR bit `isrv` cleared, `isrv` rescanned, PPR
recomputed. -/
def eoiNext (s : VirtualApicRegs) : VirtualApicRegs :=
  let idx := s.isrv >>> 5
  let bitpos := s.isrv &&& 0x1F
  let isr := bankGet s.regs.ISR idx &&& u128compl (1 <<< bitpos)
  let s1 : VirtualApicRegs :=
    { s with regs := { s.regs with ISR := bankSet s.regs.ISR idx isr } }
  let s2 : VirtualApicRegs := { s1 with isrv := s1.find_isrv }
  s2.update_ppr

/-- An EOI scenario: ISR bank 0 holds bit 5 (vector 5), bank 1 holds bit 8
(vector 40), and `isrv = 40`. -/
def eoiFixture : VirtualApicRegs :=
  { VirtualApicRegs.new 0 0 with
    isrv := 40
    regs := { LocalAPICRegs.zeroed with
      ISR := fun i => List.getD [0x20, 0x100, 0, 0, 0, 0, 0, 0] i.val 0 } }

/-- The post-EOI `isrv` value the claim asserts, written from the spec text
for comparison with the code's scan: the maximum bit index set across all
eight ISR banks, or 0 if none is set. -/
def specIsrvMax (f : Fin 8 → Nat) : Nat :=
  ((List.range 256).filter (fun w => isrVectorBitSet f w)).foldr max 0

/-! ## Bit-manipulation helper lemmas -/

lemma u32c_lt (n : Nat) : u32c n < 2 ^ 32 := Nat.mod_lt _ (by norm_num)

lemma u32c_of_lt {n : Nat} (h : n < 2 ^ 32) : u32c n = n := Nat.mod_eq_of_lt h

/-- The model `fls32` coincides with `Nat.log2` on nonzero `u32` values. -/
lemma fls32_eq_log2 {v : Nat} (h0 : v ≠ 0) (h32 : v < 2 ^ 32) : fls32 v = Nat.log2 v := by
  have hl : Nat.log2 v < 32 := (Nat.log2_lt h0).2 h32
  unfold fls32
  rw [if_neg h0]
  omega

/-- A nonzero number has its `log2` bit set. -/
lemma testBit_log2_self {v : Nat} (h0 : v ≠ 0) : v.testBit v.log2 = true := by
  have h1 : 2 ^ v.log2 ≤ v := (Nat.le_log2 h0).1 (Nat.le_refl _)
  have h2 : v < 2 ^ (v.log2 + 1) := (Nat.log2_lt h0).1 (Nat.lt_succ_self _)
  have hdiv : v / 2 ^ v.log2 = 1 := by
    apply Nat.div_eq_of_lt_le (by omega)
    have : (1 + 1) * 2 ^ v.log2 = 2 ^ (v.log2 + 1) := by ring
    omega
  rw [Nat.testBit_to_div_mod, hdiv]
  rfl

/-- A set bit bounds `log2` from below. -/
lemma le_log2_of_testBit {v k : Nat} (h : v.testBit k = true) : k ≤ Nat.log2 v := by
  have h2 : 2 ^ k ≤ v := Nat.testBit_implies_ge h
  have h0 : v ≠ 0 := by
    have := Nat.two_pow_pos k
    omega
  exact (Nat.le_log2 h0).2 h2

/-- Recombining a bank index shifted by 5 with a bit position below 32. -/
lemma shiftLeft5_or_eq (i b : Nat) (hb : b < 32) : (i <<< 5) ||| b = 32 * i + b := by
  have hdiv : ((i <<< 5) ||| b) >>> 5 = i := by
    apply Nat.eq_of_testBit_eq
    intro j
    have hb5 : b.testBit (5 + j) = false := by
      apply Nat.testBit_lt_two_pow
      calc b < 32 := hb
        _ = 2 ^ 5 := by norm_num
        _ ≤ 2 ^ (5 + j) := Nat.pow_le_pow_right (by norm_num) (by omega)
    simp [Nat.testBit_shiftRight, Nat.testBit_or, Nat.testBit_shiftLeft, hb5]
  have hmod : ((i <<< 5) ||| b) % 32 = b := by
    have hz : (i <<< 5) % 2 ^ 5 = 0 := by
      rw [Nat.shiftLeft_eq]
      exact Nat.mul_mod_left i (2 ^ 5)
    have h31 := Nat.and_distrib_right (i <<< 5) b (2 ^ 5 - 1)
    simp only [Nat.and_pow_two_sub_one_eq_mod] at h31
    rw [hz, Nat.mod_eq_of_lt (show b < 2 ^ 5 by omega)] at h31
    simpa using h31
  have hsr : ((i <<< 5) ||| b) >>> 5 = ((i <<< 5) ||| b) / 2 ^ 5 := Nat.shiftRight_eq_div_pow _ _
  have := Nat.div_add_mod ((i <<< 5) ||| b) 32
  rw [hsr] at hdiv
  simp only [show (2:Nat) ^ 5 = 32 from rfl] at hdiv
  omega

/-- The masked DCR value is one of the eight table encodings. -/
lemma and_eleven_cases (v : Nat) :
    v &&& 11 = 0 ∨ v &&& 11 = 1 ∨ v &&& 11 = 2 ∨ v &&& 11 = 3 ∨
    v &&& 11 = 8 ∨ v &&& 11 = 9 ∨ v &&& 11 = 10 ∨ v &&& 11 = 11 := by
  have h1 : v &&& 11 ≤ 11 := Nat.and_le_right
  have h2 : (v &&& 11).testBit 2 = false := by
    rw [Nat.testBit_and]
    simp [show Nat.testBit 11 2 = false by decide]
  revert h1 h2
  generalize (v &&& 11) = y
  intro h1 h2
  interval_cases y <;> tauto


/-- Invariant of the `find_isrv` scan: after examining banks `n` down to 1,
either nothing was found and those banks are all zero, or the result encodes
the highest nonzero bank `i ≤ n` together with its top set bit, with all
banks strictly between `i` and `n` zero. -/
lemma findIsrvLoop_spec (f : Fin 8 → Nat) (n : Nat) :
    (findIsrvLoop f n = 0 ∧ ∀ i, 1 ≤ i → i ≤ n → u32c (bankGet f i) = 0) ∨
    (∃ i, 1 ≤ i ∧ i ≤ n ∧ u32c (bankGet f i) ≠ 0 ∧
      findIsrvLoop f n = 32 * i + Nat.log2 (u32c (bankGet f i)) ∧
      ∀ j, i < j → j ≤ n → u32c (bankGet f j) = 0) := by
  induction n with
  | zero =>
      left
      exact ⟨rfl, fun i h1 h2 => absurd (Nat.le_trans h1 h2) (by omega)⟩
  | succ n ih =>
      by_cases h : u32c (bankGet f (n + 1)) = 0
      · have hstep : findIsrvLoop f (n + 1) = findIsrvLoop f n := by
          simp [findIsrvLoop, h]
        rcases ih with ⟨hz, hall⟩ | ⟨i, h1, h2, hnz, heq, hzero⟩
        · left
          refine ⟨by rw [hstep]; exact hz, fun i hi1 hi2 => ?_⟩
          by_cases hi : i ≤ n
          · exact hall i hi1 hi
          · have : i = n + 1 := by omega
            rw [this]; exact h
        · right
          refine ⟨i, h1, by omega, hnz, by rw [hstep]; exact heq, fun j hj1 hj2 => ?_⟩
          by_cases hj : j ≤ n
          · exact hzero j hj1 hj
          · have : j = n + 1 := by omega
            rw [this]; exact h
      · right
        have hlt : u32c (bankGet f (n + 1)) < 2 ^ 32 := u32c_lt _
        have hlog : Nat.log2 (u32c (bankGet f (n + 1))) < 32 := (Nat.log2_lt h).2 hlt
        have hstep : findIsrvLoop f (n + 1) =
            ((n + 1) <<< 5) ||| fls32 (u32c (bankGet f (n + 1))) := by
          simp [findIsrvLoop, h]
        refine ⟨n + 1, by omega, Nat.le_refl _, h, ?_, fun j hj1 hj2 => by omega⟩
        rw [hstep, fls32_eq_log2 h hlt, shiftLeft5_or_eq _ _ hlog]

/-- Any vector of the banks 1..7 range that is still set bounds the scan
result from below. -/
lemma findIsrvLoop7_le (f : Fin 8 → Nat) (w : Nat) (h32 : 32 ≤ w) (h256 : w < 256)
    (hset : isrVectorBitSet f w = true) : w ≤ findIsrvLoop f 7 := by
  have hk : w >>> 5 = w / 32 := by
    rw [Nat.shiftRight_eq_div_pow]
  have hk1 : 1 ≤ w / 32 := by omega
  have hk7 : w / 32 ≤ 7 := by omega
  unfold isrVectorBitSet at hset
  rw [hk] at hset
  have hbank : u32c (bankGet f (w / 32)) ≠ 0 := by
    intro hz
    rw [hz] at hset
    simp at hset
  have hposle : w % 32 ≤ Nat.log2 (u32c (bankGet f (w / 32))) := le_log2_of_testBit hset
  rcases findIsrvLoop_spec f 7 with ⟨hz, hall⟩ | ⟨i, h1, h2, hnz, heq, hzero⟩
  · exact absurd (hall (w / 32) hk1 hk7) hbank
  · rcases Nat.lt_trichotomy (w / 32) i with hlt | heqk | hgt
    · have hm : w % 32 < 32 := Nat.mod_lt _ (by norm_num)
      omega
    · rw [heqk] at hposle
      omega
    · exact absurd (hzero (w / 32) hgt hk7) hbank

/-- The scan result is 0 or a vector in 32..255 whose ISR bit is set. -/
lemma findIsrvLoop7_zero_or_set (f : Fin 8 → Nat) :
    findIsrvLoop f 7 = 0 ∨
    (32 ≤ findIsrvLoop f 7 ∧ findIsrvLoop f 7 < 256 ∧
      isrVectorBitSet f (findIsrvLoop f 7) = true) := by
  rcases findIsrvLoop_spec f 7 with ⟨hz, _⟩ | ⟨i, h1, h2, hnz, heq, _⟩
  · left; exact hz
  · right
    have hlog : Nat.log2 (u32c (bankGet f i)) < 32 := (Nat.log2_lt hnz).2 (u32c_lt _)
    refine ⟨by omega, by omega, ?_⟩
    unfold isrVectorBitSet
    have hdiv : (32 * i + Nat.log2 (u32c (bankGet f i))) >>> 5 = i := by
      rw [Nat.shiftRight_eq_div_pow]
      omega
    have hmod : (32 * i + Nat.log2 (u32c (bankGet f i))) % 32 =
        Nat.log2 (u32c (bankGet f i)) := by omega
    rw [heq, hdiv, hmod]
    exact testBit_log2_self hnz

lemma bankGet_bankSet_self (f : Fin 8 → Nat) (i : Nat) (h : i < 8) (x : Nat) :
    bankGet (bankSet f i x) i = x := by
  simp [bankGet, bankSet, h]

/-! ## Claim theorems -/

/-- C8: A guest write to the ID register (offset 0x020) is silently ignored
for every prior state, value and access width: the handler returns success,
performs no collaborator calls, and the entire vLAPIC state (page, shadows,
timer, `isrv`, `esr_pending`) is returned unchanged. -/
theorem handle_write_id_ignored (s : VirtualApicRegs) (env : Env) (val : Nat)
    (width : AccessWidth) :
    s.handle_write env .ID val width = (s, [], .ok) := rfl

/-- C10: `handle_read` never mutates any vLAPIC state: for every register
offset and access width the state component it returns is exactly the input
state, and a read of the EOI register returns 0. -/
theorem handle_read_no_mutation (s : VirtualApicRegs) (env : Env)
    (offset : ApicRegOffset) (width : AccessWidth) :
    (s.handle_read env offset width).1 = s ∧
    (s.handle_read env .EOI width).2 = .ok 0 := by
  constructor
  · cases offset <;>
      first
        | rfl
        | (simp only [VirtualApicRegs.handle_read]; split_ifs <;> rfl)
  · rfl

/-- C9: `ApicTimer::write_dcr` is total: for every `u32` input the value
masked with `0b1011` is one of the eight table encodings, so the
`unreachable!` arm of the shift-mapping match can never execute. -/
theorem write_dcr_total (t : ApicTimer) (v : Nat) : (t.write_dcr v).isSome = true := by
  unfold ApicTimer.write_dcr
  rcases and_eleven_cases v with h | h | h | h | h | h | h | h <;>
    simp [h, dcrShiftOfValue]

/-- C6: after `write_dcr(x)` the stored DCR reads back as `x & 0b1011` and
`divide_shift` is in 0..7, following the encoding table 0000→1, 0001→2,
0010→3, 0011→4, 1000→5, 1001→6, 1010→7, 1011→0. -/
theorem write_dcr_spec (t : ApicTimer) (v : Nat) (t' : ApicTimer)
    (h : t.write_dcr v = some t') :
    t'.read_dcr = (v &&& 0b1011) ∧ t'.divide_shift ≤ 7 ∧
    (v &&& 0b1011 = 0b0000 → t'.divide_shift = 1) ∧
    (v &&& 0b1011 = 0b0001 → t'.divide_shift = 2) ∧
    (v &&& 0b1011 = 0b0010 → t'.divide_shift = 3) ∧
    (v &&& 0b1011 = 0b0011 → t'.divide_shift = 4) ∧
    (v &&& 0b1011 = 0b1000 → t'.divide_shift = 5) ∧
    (v &&& 0b1011 = 0b1001 → t'.divide_shift = 6) ∧
    (v &&& 0b1011 = 0b1010 → t'.divide_shift = 7) ∧
    (v &&& 0b1011 = 0b1011 → t'.divide_shift = 0) := by
  unfold ApicTimer.write_dcr at h
  rcases and_eleven_cases v with hc | hc | hc | hc | hc | hc | hc | hc <;>
    (simp only [hc, dcrShiftOfValue, Option.some.injEq] at h) <;>
    subst h <;>
    simp [ApicTimer.read_dcr, hc]

/-- Witness for C6 at a concrete input: writing `0xFFFFFFFF` masks to
`0b1011` and selects shift 0 (divide by 1). -/
theorem write_dcr_spec_witness :
    ({ ApicTimer.new 0 0 with
        divide_configuration_register := 11, divide_shift := 0 } : ApicTimer).read_dcr =
      (0xFFFFFFFF &&& 0b1011) ∧
    ({ ApicTimer.new 0 0 with
        divide_configuration_register := 11, divide_shift := 0 } : ApicTimer).divide_shift ≤ 7 := by
  have h := write_dcr_spec (ApicTimer.new 0 0) 0xFFFFFFFF
    { ApicTimer.new 0 0 with divide_configuration_register := 11, divide_shift := 0 }
    (by decide)
  exact ⟨h.1, h.2.1⟩

/-- C3 (amended): for every register index in the `0x00..0x3F` window that is
outside the decodable set, `ApicRegOffset::from` panics — modelled as `none` —
rather than reporting a decode error to its caller (its return type carries no
error), and every decodable index yields a register identity. -/
theorem decoder_unknown_index_panics :
    ∀ v, v < 0x40 →
      (isDecodableIndex v = false → ApicRegOffset.fromIndex v = none) ∧
      (isDecodableIndex v = true → (ApicRegOffset.fromIndex v).isSome = true) := by
  decide

/-- Witness for C3 (amended) at the concrete index 0. -/
theorem decoder_unknown_index_witness : ApicRegOffset.fromIndex 0 = none :=
  (decoder_unknown_index_panics 0 (by decide)).1 (by decide)

/-- Counterexample for C3 as stated: the xAPIC MMIO access at guest address
0xFEE0_0000 decodes register index 0, which is not in the decodable set, and
the decoder panics (`none`) instead of returning an error value to the
caller. -/
theorem decoder_reserved_offset_counterexample :
    isDecodableIndex 0 = false ∧ xapic_mmio_access_reg_offset 0xFEE00000 = none := by
  decide

/-- C5: `ApicTimer::write_icr(v)` stores `v` as the initial count, stops any
running timer first (a `cancel_timer` call is issued whenever the timer was
started), and afterwards `is_started()` is true exactly when `v > 0`; the
invariant `is_started() = (initial_count_register > 0 ∧ cancel_token present)`
holds for the resulting state. -/
theorem write_icr_timer_spec (t : ApicTimer) (env : Env) (v : Nat) :
    (t.write_icr env v).1.initial_count_register = v ∧
    (t.write_icr env v).1.is_started = decide (0 < v) ∧
    ((t.write_icr env v).1.is_started =
      (decide (0 < (t.write_icr env v).1.initial_count_register) &&
        (t.write_icr env v).1.cancel_token.isSome)) ∧
    (t.is_started = true →
      Event.cancelTimer (t.cancel_token.getD 0) ∈ (t.write_icr env v).2.1) := by
  rcases htok : t.cancel_token with _ | tok <;>
    by_cases hicr : 0 < t.initial_count_register <;>
    by_cases hv : 0 < v <;>
      simp [ApicTimer.write_icr, ApicTimer.stop_timer, ApicTimer.start_timer,
        ApicTimer.is_started, htok, hicr, hv]

/-- Witness for C5 at a concrete started timer: writing 0 stops it and the
pending cancellation is issued through the stored token. -/
theorem write_icr_timer_spec_witness :
    Event.cancelTimer
        (({ ApicTimer.new 0 0 with
            initial_count_register := 5, cancel_token := some 3 } : ApicTimer).cancel_token.getD 0) ∈
      (({ ApicTimer.new 0 0 with
          initial_count_register := 5, cancel_token := some 3 } : ApicTimer).write_icr
        envFixture 0).2.1 :=
  (write_icr_timer_spec
    { ApicTimer.new 0 0 with initial_count_register := 5, cancel_token := some 3 }
    envFixture 0).2.2.2 (by decide)

/-- C4 (amended): `read_ccr` returns 0 when the timer is not started;
otherwise it converts `deadline_ns.wrapping_sub(now_ns)` to ticks, shifts
right by `divide_shift` and truncates to 32 bits. When the deadline has not
passed this is the remaining time as the claim states; when the current time
has passed the deadline the 64-bit subtraction wraps around instead of
saturating at 0. -/
theorem read_ccr_spec (t : ApicTimer) (env : Env) :
    (t.is_started = false → t.read_ccr env = 0) ∧
    (t.is_started = true → u64c env.currentTimeNanos ≤ u64c t.deadline_ns →
      t.read_ccr env =
        u32c (u64c (env.nanosToTicks (u64c t.deadline_ns - u64c env.currentTimeNanos)) >>>
          t.divide_shift)) ∧
    (t.is_started = true → u64c t.deadline_ns < u64c env.currentTimeNanos →
      t.read_ccr env =
        u32c (u64c (env.nanosToTicks
            (2 ^ 64 - (u64c env.currentTimeNanos - u64c t.deadline_ns))) >>>
          t.divide_shift)) := by
  have key : ∀ X Y : Nat, X = Y →
      u32c (u64c (env.nanosToTicks X) >>> t.divide_shift) =
        u32c (u64c (env.nanosToTicks Y) >>> t.divide_shift) :=
    fun X Y hXY => by rw [hXY]
  refine ⟨fun h => ?_, fun h hle => ?_, fun h hlt => ?_⟩
  · simp [ApicTimer.read_ccr, h]
  · have hred : t.read_ccr env =
        u32c (u64c (env.nanosToTicks
            (u64c (u64c t.deadline_ns + 2 ^ 64 - u64c env.currentTimeNanos))) >>>
          t.divide_shift) := by
      unfold ApicTimer.read_ccr
      rw [h]
      rfl
    rw [hred]
    refine key _ _ ?_
    unfold u64c at hle ⊢
    omega
  · have hred : t.read_ccr env =
        u32c (u64c (env.nanosToTicks
            (u64c (u64c t.deadline_ns + 2 ^ 64 - u64c env.currentTimeNanos))) >>>
          t.divide_shift) := by
      unfold ApicTimer.read_ccr
      rw [h]
      rfl
    rw [hred]
    refine key _ _ ?_
    unfold u64c at hlt ⊢
    omega



/-- Counterexample for C4 as stated: with the deadline passed, `read_ccr`
does not saturate at 0 — the wrapping subtraction produces `2^32 - 10` after
truncation. -/
theorem read_ccr_no_saturation :
    ccrFixtureTimer.is_started = true ∧
    ccrFixtureTimer.deadline_ns < ccrFixtureEnv.currentTimeNanos ∧
    ccrFixtureTimer.read_ccr ccrFixtureEnv = 4294967286 ∧
    ccrFixtureTimer.read_ccr ccrFixtureEnv ≠ 0 := by
  decide

/-- Witness for C4 (amended) at the concrete fixture. -/
theorem read_ccr_spec_witness :
    ccrFixtureTimer.read_ccr ccrFixtureEnv =
      u32c (u64c (ccrFixtureEnv.nanosToTicks
          (2 ^ 64 - (u64c ccrFixtureEnv.currentTimeNanos - u64c ccrFixtureTimer.deadline_ns))) >>>
        ccrFixtureTimer.divide_shift) :=
  (read_ccr_spec ccrFixtureTimer ccrFixtureEnv).2.2 (by decide) (by decide)



/-- C1 (code evaluation at the failing input): with SVR software-enable 0, a
guest write of `0x0000_00FF` to LVT_ERROR is stored with the mask bit (16)
CLEAR — the write handler forces the mask bit exactly when SVR bit 8 is 1,
the inverse of the specified condition — so the guest subsequently reads an
unmasked LVT while the APIC is software-disabled. With SVR bit 8 set, the
same write does come back with bit 16 forced. -/
theorem write_lvt_svr_inverted :
    (u32c svrDisabledFixture.regs.SVR).testBit 8 = false ∧
    (svrDisabledFixture.handle_write envFixture .LvtErr 0xFF .Dword).1.lvt_last.lvt_err = 0xFF ∧
    Nat.testBit
      ((svrDisabledFixture.handle_write envFixture .LvtErr 0xFF .Dword).1.lvt_last.lvt_err)
      16 = false ∧
    (svrDisabledFixture.handle_write envFixture .LvtErr 0xFF .Dword).2.2 = .ok ∧
    ((svrDisabledFixture.handle_write envFixture .LvtErr 0xFF .Dword).1.handle_read
        envFixture .LvtErr .Dword).2.toOption = some 0xFF ∧
    (u32c svrEnabledFixture.regs.SVR).testBit 8 = true ∧
    Nat.testBit
      ((svrEnabledFixture.handle_write envFixture .LvtErr 0xFF .Dword).1.lvt_last.lvt_err)
      16 = true := by
  decide

/-! ### C7: illegal fixed IPI vector -/

lemma clear_bit12_mode_bits (a : Nat) :
    ((a &&& u32compl (1 <<< 12)) >>> 8) &&& 7 = (a >>> 8) &&& 7 := by
  apply Nat.eq_of_testBit_eq
  intro i
  rw [show (7 : Nat) = 2 ^ 3 - 1 from rfl]
  simp only [u32compl, Nat.one_shiftLeft, Nat.testBit_and, Nat.testBit_shiftRight,
    Nat.testBit_xor, Nat.testBit_two_pow_sub_one, Nat.testBit_two_pow]
  by_cases hi : i < 3
  · have hx : 8 + i < 32 := by omega
    have hy : ¬(12 = 8 + i) := by omega
    simp [hi, hx, hy]
  · simp [hi]

lemma clear_bit12_vec_bits (a : Nat) :
    (a &&& u32compl (1 <<< 12)) &&& 0xFF = a &&& 0xFF := by
  rw [Nat.and_assoc]
  congr 1

lemma shorthandOfBits_total (x : Nat) : ∃ sh, shorthandOfBits (x &&& 3) = some sh := by
  have h : x &&& 3 ≤ 3 := Nat.and_le_right
  have hc : x &&& 3 = 0 ∨ x &&& 3 = 1 ∨ x &&& 3 = 2 ∨ x &&& 3 = 3 := by omega
  rcases hc with h | h | h | h <;> rw [h] <;> exact ⟨_, rfl⟩

/-- C7: a write to ICRLow whose delivery mode is Fixed (ICR_LO bits 8..10 =
000) and whose vector (bits 0..7) is below 16 sets the "Send Illegal Vector"
bit (bit 5) of the pending ESR accumulator, performs no interrupt delivery to
any vCPU (no collaborator call is made), and surfaces no error: the handler
returns success. The servicing state (`isrv`, ISR/IRR banks, timer) is
untouched. -/
theorem write_icr_illegal_vector (s : VirtualApicRegs) (env : Env)
    (hmode : (u32c s.regs.ICR_LO >>> 8) &&& 7 = 0)
    (hvec : u32c s.regs.ICR_LO &&& 0xFF < 16) :
    ∃ s', s.write_icr env = (s', [], .ok) ∧
      s'.esr_pending.testBit 5 = true ∧
      s'.virtual_timer = s.virtual_timer ∧
      s'.isrv = s.isrv ∧
      s'.regs.ISR = s.regs.ISR ∧
      s'.regs.IRR = s.regs.IRR := by
  have hm : ((u32c s.regs.ICR_LO &&& u32compl (1 <<< 12)) >>> 8) &&& 7 = 0 := by
    rw [clear_bit12_mode_bits]; exact hmode
  have hv : (u32c s.regs.ICR_LO &&& u32compl (1 <<< 12)) &&& 0xFF < 16 := by
    rw [clear_bit12_vec_bits]; exact hvec
  have hesr : ∀ e : Nat, ((u32c e &&& u32compl (1 <<< 5)) ||| (1 <<< 5)).testBit 5 = true := by
    intro e
    rw [Nat.testBit_or]
    have h5 : Nat.testBit (1 <<< 5) 5 = true := by decide
    simp only [h5, Bool.or_true]
  have h3 : ((u32c s.regs.ICR_LO &&& u32compl (1 <<< 12)) >>> 18) &&& 3 ≤ 3 :=
    Nat.and_le_right
  have hc : ((u32c s.regs.ICR_LO &&& u32compl (1 <<< 12)) >>> 18) &&& 3 = 0 ∨
      ((u32c s.regs.ICR_LO &&& u32compl (1 <<< 12)) >>> 18) &&& 3 = 1 ∨
      ((u32c s.regs.ICR_LO &&& u32compl (1 <<< 12)) >>> 18) &&& 3 = 2 ∨
      ((u32c s.regs.ICR_LO &&& u32compl (1 <<< 12)) >>> 18) &&& 3 = 3 := by omega
  unfold VirtualApicRegs.write_icr
  dsimp only
  rw [hm]
  dsimp only [deliveryModeOfBits]
  rcases hc with hy | hy | hy | hy <;>
    (rw [hy]; dsimp only [shorthandOfBits]; rw [if_pos (And.intro rfl hv)];
     exact ⟨_, rfl, hesr _, rfl, rfl, rfl, rfl⟩)


/-- Witness for C7 at the concrete fixture. -/
theorem write_icr_illegal_vector_witness :
    ∃ s', illegalIpiFixture.write_icr envFixture = (s', [], .ok) ∧
      s'.esr_pending.testBit 5 = true ∧
      s'.virtual_timer = illegalIpiFixture.virtual_timer ∧
      s'.isrv = illegalIpiFixture.isrv ∧
      s'.regs.ISR = illegalIpiFixture.regs.ISR ∧
      s'.regs.IRR = illegalIpiFixture.regs.IRR :=
  write_icr_illegal_vector illegalIpiFixture envFixture (by decide) (by decide)

/-! ### C2: EOI processing -/


lemma process_eoi_eq (s : VirtualApicRegs) (hnz : s.isrv ≠ 0) (hidx : s.isrv >>> 5 < 8) :
    s.process_eoi =
      (if (u32c (s.regs.TMR ⟨s.isrv >>> 5, hidx⟩)).testBit (s.isrv &&& 0x1F)
       then (eoiNext s, [Event.vioapicBroadcastEoi s.isrv], ExecRes.stub)
       else (eoiNext s, [Event.vcpuMakeRequest], ExecRes.stub)) := by
  unfold VirtualApicRegs.process_eoi eoiNext bankGetChecked bankGet
  rw [if_neg hnz]
  simp only [extract_index_and_bitpos_u32, dif_pos hidx]
  rfl

lemma eoiNext_props (s : VirtualApicRegs) (hlt : s.isrv < 256) :
    isrVectorBitSet (eoiNext s).regs.ISR s.isrv = false ∧
    ((eoiNext s).isrv = 0 ∨
      (32 ≤ (eoiNext s).isrv ∧ (eoiNext s).isrv < 256 ∧
        isrVectorBitSet (eoiNext s).regs.ISR (eoiNext s).isrv = true)) ∧
    (∀ w, 32 ≤ w → w < 256 → isrVectorBitSet (eoiNext s).regs.ISR w = true →
      w ≤ (eoiNext s).isrv) ∧
    (eoiNext s).regs.PPR =
      (if prio (u32c s.regs.TPR) ≥ prio (eoiNext s).isrv then u32c s.regs.TPR
       else (eoiNext s).isrv &&& 0xF0) := by
  have hidx : s.isrv >>> 5 < 8 := by
    rw [Nat.shiftRight_eq_div_pow]; omega
  have hISR : (eoiNext s).regs.ISR =
      bankSet s.regs.ISR (s.isrv >>> 5)
        (bankGet s.regs.ISR (s.isrv >>> 5) &&& u128compl (1 <<< (s.isrv &&& 0x1F))) := rfl
  have hisrv : (eoiNext s).isrv =
      findIsrvLoop (bankSet s.regs.ISR (s.isrv >>> 5)
        (bankGet s.regs.ISR (s.isrv >>> 5) &&& u128compl (1 <<< (s.isrv &&& 0x1F)))) 7 := rfl
  refine ⟨?_, ?_, ?_, ?_⟩
  · unfold isrVectorBitSet
    rw [hISR, bankGet_bankSet_self _ _ hidx]
    have hb : s.isrv &&& 0x1F = s.isrv % 32 := by
      rw [show (0x1F : Nat) = 2 ^ 5 - 1 from rfl, Nat.and_pow_two_sub_one_eq_mod]
    rw [hb]
    have hm : s.isrv % 32 < 32 := Nat.mod_lt _ (by norm_num)
    have h128 : s.isrv % 32 < 128 := by omega
    unfold u32c u128compl
    rw [Nat.testBit_mod_two_pow, Nat.testBit_and, Nat.testBit_xor, Nat.one_shiftLeft,
      Nat.testBit_two_pow_sub_one, Nat.testBit_two_pow_self]
    simp [hm, h128]
  · rw [hisrv, hISR]
    exact findIsrvLoop7_zero_or_set _
  · rw [hisrv, hISR]
    intro w h32 h256 hset
    exact findIsrvLoop7_le _ w h32 h256 hset
  · rw [hisrv]
    rfl

/-- C2 (amended): a guest EOI write with `isrv = 0` is a no-op; with a
nonzero vector `v = isrv` it clears ISR bit `v` (bank `v/32`, bit `v%32`),
sets the new `isrv` to the maximum bit index still set across ISR banks 1..7
— the scan never inspects bank 0, so vectors 0..31 are excluded, contrary to
the claim's "all eight banks" — or 0 when banks 1..7 are all clear, and
recomputes PPR as TPR when `priority(TPR) ≥ priority(isrv)` and
`isrv & 0xF0` otherwise. The trailing I/O-APIC EOI broadcast and
`vcpu_make_request` collaborator calls are `unimplemented!` stubs in the
source, recorded here as events. -/
theorem process_eoi_spec (s : VirtualApicRegs) (hlt : s.isrv < 256) :
    (s.isrv = 0 → s.process_eoi = (s, [], .ok)) ∧
    (s.isrv ≠ 0 →
      ∃ s' evs res, s.process_eoi = (s', evs, res) ∧
        isrVectorBitSet s'.regs.ISR s.isrv = false ∧
        (s'.isrv = 0 ∨
          (32 ≤ s'.isrv ∧ s'.isrv < 256 ∧ isrVectorBitSet s'.regs.ISR s'.isrv = true)) ∧
        (∀ w, 32 ≤ w → w < 256 → isrVectorBitSet s'.regs.ISR w = true → w ≤ s'.isrv) ∧
        s'.regs.PPR =
          (if prio (u32c s.regs.TPR) ≥ prio s'.isrv then u32c s.regs.TPR
           else s'.isrv &&& 0xF0)) := by
  constructor
  · intro h0
    unfold VirtualApicRegs.process_eoi
    rw [if_pos h0]
  · intro hnz
    have hidx : s.isrv >>> 5 < 8 := by
      rw [Nat.shiftRight_eq_div_pow]; omega
    obtain ⟨hclear, hzs, hmax, hppr⟩ := eoiNext_props s hlt
    rw [process_eoi_eq s hnz hidx]
    split
    · exact ⟨eoiNext s, _, _, rfl, hclear, hzs, hmax, hppr⟩
    · exact ⟨eoiNext s, _, _, rfl, hclear, hzs, hmax, hppr⟩



/-- Counterexample for C2 as stated: after the EOI of vector 40 the maximum
bit index still set across all eight ISR banks is 5 (bank 0, bit 5), but the
code's rescan — which skips bank 0 — produces `isrv = 0`. -/
theorem process_eoi_bank0_counterexample :
    (eoiFixture.process_eoi).1.isrv = 0 ∧
    isrVectorBitSet (eoiFixture.process_eoi).1.regs.ISR 5 = true ∧
    specIsrvMax (eoiFixture.process_eoi).1.regs.ISR = 5 ∧
    (eoiFixture.process_eoi).1.isrv ≠ specIsrvMax (eoiFixture.process_eoi).1.regs.ISR := by
  decide

/-- Witness for C2 (amended) at the concrete fixture. -/
theorem process_eoi_spec_witness :
    ∃ s' evs res, eoiFixture.process_eoi = (s', evs, res) ∧
      isrVectorBitSet s'.regs.ISR eoiFixture.isrv = false ∧
      (s'.isrv = 0 ∨
        (32 ≤ s'.isrv ∧ s'.isrv < 256 ∧ isrVectorBitSet s'.regs.ISR s'.isrv = true)) ∧
      (∀ w, 32 ≤ w → w < 256 → isrVectorBitSet s'.regs.ISR w = true → w ≤ s'.isrv) ∧
      s'.regs.PPR =
        (if prio (u32c eoiFixture.regs.TPR) ≥ prio s'.isrv then u32c eoiFixture.regs.TPR
         else s'.isrv &&& 0xF0) :=
  (process_eoi_spec eoiFixture (by decide)).2 (by decide)

end XVlapic
